import Mathlib

/-!
Verification development for the ConnectMyGear inference core.

The definitions below are a shallow embedding of the TypeScript source:
  * `src/utils/inference.ts` — the Compatibility Resolver and the Network
    Inference Engine (`inferConnections`);
  * `src/utils/recommendations.ts` — the Pairwise Recommender
    (`recommendBetweenDevices`, `buildConnections`).

String-literal connector codes of the source are represented by inductive
enumerations; each constructor is annotated with the exact source string.
JavaScript `Set`s (insertion-ordered, deduplicated) are represented by
lists built with `insertSet`; `Map` lookup built from an entry list keeps
the last entry for a duplicated key, which `deviceMapGet` mirrors by
searching the reversed instance list.
-/

namespace ConnectMyGear

/-- Source `PortDirection` — source values `in`, `out`, `in_out` (Port.ts). -/
inductive PortDirection where
  | input   -- "in"
  | output  -- "out"
  | inOut   -- "in_out"
  deriving DecidableEq, Repr, Fintype

/-- Source `PhysicalConnector` (Port.ts): `6.35mm-ts`, `6.35mm-trs`, `xlr`, `rca`,
`3.5mm-trs`, `din5`, `trs-midi`. -/
inductive PhysicalConnector where
  | p635_ts   -- "6.35mm-ts"
  | p635_trs  -- "6.35mm-trs"
  | xlr       -- "xlr"
  | rca       -- "rca"
  | p35_trs   -- "3.5mm-trs"
  | din5      -- "din5"
  | trs_midi  -- "trs-midi"
  deriving DecidableEq, Repr, Fintype

/-- Source `PortConnector` (Port.ts): the twelve legacy codes plus the seven
physical codes, with `xlr` shared between the two lists (the TypeScript
type is a union of string literals, so the distinct values number 18). -/
inductive PortConnector where
  | din_5          -- "din_5"
  | trs_3_5mm      -- "trs_3.5mm"
  | ts_6_35mm      -- "ts_6.35mm"
  | trs_6_35mm     -- "trs_6.35mm"
  | usb_c          -- "usb_c"
  | usb_b          -- "usb_b"
  | usb_a          -- "usb_a"
  | xlr            -- "xlr"
  | combo_xlr_trs  -- "combo_xlr_trs"
  | sync_out       -- "sync_out"
  | sync_in        -- "sync_in"
  | cv_gate        -- "cv_gate"
  | c635_ts        -- "6.35mm-ts"
  | c635_trs       -- "6.35mm-trs"
  | rca            -- "rca"
  | c35_trs        -- "3.5mm-trs"
  | din5           -- "din5"
  | trs_midi       -- "trs-midi"
  deriving DecidableEq, Repr, Fintype

/-- Source `PortSignal` (Port.ts). -/
inductive PortSignal where
  | audio
  | midi
  | sync
  | usb_audio
  | usb_midi
  | cv
  deriving DecidableEq, Repr, Fintype

/-- Source `PortDomain` (Port.ts). -/
inductive PortDomain where
  | audio
  | midi
  deriving DecidableEq, Repr, Fintype

/-- Source `AudioWiring` (Port.ts). -/
inductive AudioWiring where
  | balanced_mono
  | unbalanced_mono
  | unbalanced_stereo
  deriving DecidableEq, Repr, Fintype

/-- Source `ConnectionStatus` (inference.ts). -/
inductive ConnectionStatus where
  | pending
  | valid
  | invalid
  deriving DecidableEq, Repr, Fintype

/-- Source `Port` (Port.ts). -/
structure Port where
  id : String
  label : String
  direction : PortDirection
  connector : PortConnector
  signals : List PortSignal
  domain : Option PortDomain := none
  stereo : Option Bool := none
  audioWiring : Option AudioWiring := none
  physicalConnector : Option PhysicalConnector := none
  notes : Option String := none
  deriving DecidableEq, Repr

/-- Source `Device` (Device.ts). -/
structure Device where
  id : String
  name : String
  manufacturer : Option String := none
  category : Option String := none
  description : Option String := none
  ports : List Port
  tags : Option (List String) := none
  deriving DecidableEq, Repr

/-- Source `PortReference` (inference.ts). -/
structure PortReference where
  instanceId : String
  deviceId : String
  portId : String
  deviceName : Option String := none
  portLabel : Option String := none
  deriving DecidableEq, Repr

/-- Source `Connection` (inference.ts). -/
structure Connection where
  id : String
  cFrom : PortReference  -- field `from` (reserved word in Lean)
  cTo : PortReference    -- field `to`
  status : ConnectionStatus
  issues : Option (List String) := none
  deriving DecidableEq, Repr

/-- Source `CableSuggestion` (inference.ts); the two-element `ports` tuple is a pair. -/
structure CableSuggestion where
  id : String
  description : String
  connector : PortConnector
  ports : PortReference × PortReference
  requiresAdapter : Option String := none
  adapters : Option (List String) := none
  deriving DecidableEq, Repr

/-- Source `InferenceResult` (inference.ts). -/
structure InferenceResult where
  connections : List Connection
  warnings : List String
  requiredCables : List CableSuggestion
  summaries : List String
  deriving DecidableEq, Repr

/-- Source `DeviceInstance` (inference.ts). -/
structure DeviceInstance where
  instanceId : String
  device : Device
  deriving DecidableEq, Repr

/-- Source `InferenceOptions` (inference.ts): `clockMasterIds?: Set<string>`.
The optional JavaScript `Set` is carried as its insertion-ordered element
list; `inferConnections` re-deduplicates it, which is the identity on any
list that actually came from a `Set`. -/
structure InferenceOptions where
  clockMasterIds : Option (List String) := none
  deriving DecidableEq, Repr

/-- Source `ConnectorCompatibility` (inference.ts). -/
structure ConnectorCompatibility where
  compatible : Bool
  resultingConnector : Option PortConnector := none
  adapterCodes : Option (List String) := none
  deriving DecidableEq, Repr

/-- Injection of a physical code into the connector union; on the string
level this is the identity (the physical codes are a subset of the
connector codes). -/
def physToConnector : PhysicalConnector → PortConnector
  | .p635_ts => .c635_ts
  | .p635_trs => .c635_trs
  | .xlr => .xlr
  | .rca => .rca
  | .p35_trs => .c35_trs
  | .din5 => .din5
  | .trs_midi => .trs_midi

/-- Source `isPhysicalConnector` (inference.ts line 97) combined with the
TypeScript narrowing cast: returns the connector as a physical code when
it is one of the seven entries of `PHYSICAL_CONNECTORS`, else `none`. -/
def asPhysical : PortConnector → Option PhysicalConnector
  | .c635_ts => some .p635_ts
  | .c635_trs => some .p635_trs
  | .xlr => some .xlr
  | .rca => some .rca
  | .c35_trs => some .p35_trs
  | .din5 => some .din5
  | .trs_midi => some .trs_midi
  | _ => none

/-- Source `LEGACY_CONNECTOR_MAP` (inference.ts lines 49-68). -/
def LEGACY_CONNECTOR_MAP : PortConnector → Option PhysicalConnector
  | .din_5 => some .din5
  | .trs_3_5mm => some .p35_trs
  | .ts_6_35mm => some .p635_ts
  | .trs_6_35mm => some .p635_trs
  | .combo_xlr_trs => some .p635_trs
  | .xlr => some .xlr
  | .rca => some .rca
  | .c635_ts => some .p635_ts
  | .c635_trs => some .p635_trs
  | .c35_trs => some .p35_trs
  | .din5 => some .din5
  | .trs_midi => some .trs_midi
  | .usb_c => none
  | .usb_b => none
  | .usb_a => none
  | .sync_out => none
  | .sync_in => none
  | .cv_gate => none

/-- Source `ADAPTER_MATRIX` (inference.ts lines 70-74), keyed by the ordered pair
"from:to"; the two lookup directions are tried by `resolveAdapterChain`. -/
def ADAPTER_MATRIX : PhysicalConnector → PhysicalConnector → Option (List String)
  | .p35_trs, .p635_trs => some ["stereo-breakout-cable"]
  | .p35_trs, .p635_ts => some ["stereo-breakout-cable"]
  | .trs_midi, .din5 => some ["trs-midi-to-din5"]
  | _, _ => none

/-- Source `ADAPTER_LABELS` (inference.ts lines 76-79). -/
def ADAPTER_LABELS : String → Option String := fun code =>
  if code = "stereo-breakout-cable" then some "TRS stereo breakout cable"
  else if code = "trs-midi-to-din5" then some "TRS-A to DIN-5 MIDI cable"
  else none

/-- Source `getPhysicalConnector` (inference.ts lines 101-111), written on the two
port fields it reads (the explicit override and the connector code). -/
def getPhysicalConnectorKey (connector : PortConnector)
    (override : Option PhysicalConnector) : Option PhysicalConnector :=
  match override with
  | some p => some p
  | none =>
    match asPhysical connector with
    | some p => some p
    | none => LEGACY_CONNECTOR_MAP connector

/-- Source `getPhysicalConnector` applied to a port. -/
def getPhysicalConnector (port : Port) : Option PhysicalConnector :=
  getPhysicalConnectorKey port.connector port.physicalConnector

/-- Source `resolveAdapterChain` (inference.ts lines 136-146): forward lookup,
then reverse lookup. -/
def resolveAdapterChain (pFrom pTo : PhysicalConnector) : Option (List String) :=
  match ADAPTER_MATRIX pFrom pTo with
  | some forward => some forward
  | none =>
    match ADAPTER_MATRIX pTo pFrom with
    | some reverse => some reverse
    | none => none

/-- Fallback part of `getConnectorCompatibility` (inference.ts lines
168-186): raw connector-code equality, then the two combo-XLR/TRS special
cases. -/
def gccFallback (fc tc : PortConnector) : ConnectorCompatibility :=
  if fc = tc then { compatible := true, resultingConnector := some fc }
  else if (fc = .combo_xlr_trs ∧ tc = .trs_6_35mm) ∨
          (tc = .combo_xlr_trs ∧ fc = .trs_6_35mm) then
    { compatible := true, resultingConnector := some .c635_trs }
  else if (fc = .combo_xlr_trs ∧ tc = .ts_6_35mm) ∨
          (tc = .combo_xlr_trs ∧ fc = .ts_6_35mm) then
    { compatible := true, resultingConnector := some .c635_ts }
  else { compatible := false }

/-- Source `getConnectorCompatibility` (inference.ts lines 148-187) on the four
fields it reads: connector code and physical-connector override of each
side. The physical branch runs when both sides resolve to a family:
equality, then the adapter matrix, then the 6.35 mm TS/TRS pairing;
otherwise (and when the physical branch does not return) control falls
through to `gccFallback`. -/
def gccKey (fc : PortConnector) (fo : Option PhysicalConnector)
    (tc : PortConnector) (tov : Option PhysicalConnector) : ConnectorCompatibility :=
  match getPhysicalConnectorKey fc fo, getPhysicalConnectorKey tc tov with
  | some fromPhysical, some toPhysical =>
    if fromPhysical = toPhysical then
      { compatible := true, resultingConnector := some (physToConnector fromPhysical) }
    else
      match resolveAdapterChain fromPhysical toPhysical with
      | some adapterCodes =>
        { compatible := true, resultingConnector := some (physToConnector toPhysical),
          adapterCodes := some adapterCodes }
      | none =>
        if (fromPhysical = .p635_ts ∨ fromPhysical = .p635_trs) ∧
           (toPhysical = .p635_ts ∨ toPhysical = .p635_trs) then
          { compatible := true, resultingConnector := some .c635_ts }
        else gccFallback fc tc
  | _, _ => gccFallback fc tc

/-- Source `getConnectorCompatibility` applied to two ports. -/
def getConnectorCompatibility (fromPort toPort : Port) : ConnectorCompatibility :=
  gccKey fromPort.connector fromPort.physicalConnector
    toPort.connector toPort.physicalConnector

/-- Source `getPortDomain` (inference.ts lines 113-127). -/
def getPortDomain (port : Port) : Option PortDomain :=
  match port.domain with
  | some d => some d
  | none =>
    if PortSignal.audio ∈ port.signals then some .audio
    else if PortSignal.midi ∈ port.signals then some .midi
    else none

/-- Source `getAudioWiring` (inference.ts lines 129-134). -/
def getAudioWiring (port : Port) : Option AudioWiring :=
  if PortSignal.audio ∈ port.signals then port.audioWiring else none

/-- Source `describeAdapterCode` (inference.ts lines 189-191). -/
def describeAdapterCode (code : String) : String :=
  (ADAPTER_LABELS code).getD code

/-- Source `formatAdapterChain` (inference.ts lines 193-201). -/
def formatAdapterChain : List String → String
  | [] => ""
  | [code] => describeAdapterCode code
  | codes => String.intercalate " + " (codes.map describeAdapterCode)

/-- Source `describeConnector` (inference.ts lines 484-525). -/
def describeConnector : PortConnector → String
  | .din_5 => "5-pin DIN MIDI"
  | .din5 => "DIN-5 MIDI"
  | .trs_3_5mm => "3.5 mm TRS"
  | .c35_trs => "3.5 mm TRS"
  | .ts_6_35mm => "6.35 mm TS"
  | .c635_ts => "6.35 mm TS"
  | .trs_6_35mm => "6.35 mm TRS"
  | .c635_trs => "6.35 mm TRS"
  | .rca => "RCA"
  | .usb_c => "USB-C"
  | .usb_b => "USB-B"
  | .usb_a => "USB-A"
  | .xlr => "XLR"
  | .combo_xlr_trs => "combo XLR/TRS"
  | .trs_midi => "TRS MIDI"
  | .sync_out => "sync pulse"
  | .sync_in => "sync pulse"
  | .cv_gate => "CV/Gate"

/-- Source `describeSignal` (inference.ts lines 527-544). -/
def describeSignal : PortSignal → String
  | .audio => "audio"
  | .midi => "MIDI"
  | .sync => "clock"
  | .usb_audio => "USB audio"
  | .usb_midi => "USB MIDI"
  | .cv => "CV"

/-- Source `formatSignals` (inference.ts lines 546-555). -/
def formatSignals : List PortSignal → String
  | [] => "no signals"
  | [s] => describeSignal s
  | a :: b :: rest =>
    String.intercalate ", " ((a :: b :: rest).dropLast.map describeSignal) ++
      " and " ++ describeSignal ((a :: b :: rest).getLast (List.cons_ne_nil a (b :: rest)))

/-- Source `buildCableDescription` (inference.ts lines 473-482). The `[]` case is
unreachable in the engine (only called with a nonempty signal overlap); the
JavaScript source would render the string "undefined" for the missing last
element there, which the first branch reproduces. -/
def buildCableDescription (connector : PortConnector) (signals : List PortSignal) : String :=
  let signalLabel :=
    match signals with
    | [] => " and undefined"
    | [s] => describeSignal s
    | a :: b :: rest =>
      String.intercalate ", " ((a :: b :: rest).dropLast.map describeSignal) ++
        " and " ++ describeSignal ((a :: b :: rest).getLast (List.cons_ne_nil a (b :: rest)))
  signalLabel ++ " " ++ describeConnector connector ++ " cable"

/-- JavaScript `String.prototype.endsWith`, on the character lists (the
built-in `String.endsWith` of Lean is equivalent but does not reduce in
the kernel). -/
def strEndsWith (s suffix : String) : Bool :=
  suffix.data.isSuffixOf s.data

/-- Source `intersection` (inference.ts lines 469-471). -/
def intersection {α : Type} [DecidableEq α] (a b : List α) : List α :=
  a.filter (fun item => decide (item ∈ b))

/-- Case-insensitive substring test, modelling
`value.toLowerCase().includes('monitor')`. -/
def containsLowercase (value needle : String) : Bool :=
  decide (1 < (value.toLower.splitOn needle).length)

/-- Source `isMonitorDevice` (inference.ts lines 557-565). -/
def isMonitorDevice (device : Device) : Bool :=
  if (device.tags.getD []).any (fun tag => tag.toLower == "monitor") then true
  else
    match device.category with
    | some category => containsLowercase category "monitor"
    | none => false

/-- Insertion into an insertion-ordered deduplicated list — the model of
`Set.add`. -/
def insertSet (l : List String) (x : String) : List String :=
  if x ∈ l then l else l ++ [x]

/-- Adding a batch of elements to a `Set` in order. -/
def insertAll (l : List String) (xs : List String) : List String :=
  xs.foldl insertSet l

/-- Model of `new Set(iterable)`: insertion-ordered deduplication of a list. -/
def toSetList (l : List String) : List String := insertAll [] l

/-- Lookup in the `Map` built from the instance list (inference.ts lines
212-214): a JavaScript `Map` keeps the last entry for a duplicated key, so
the reversed list is searched. -/
def deviceMapGet (instances : List DeviceInstance) (instanceId : String) : Option Device :=
  (instances.reverse.find? (fun inst => decide (inst.instanceId = instanceId))).map
    (fun inst => inst.device)

/-- The `monitorInstances` set (inference.ts lines 221, 225-228). -/
def monitorInstancesOf (instances : List DeviceInstance) : List String :=
  toSetList ((instances.filter (fun i => isMonitorDevice i.device)).map
    (fun i => i.instanceId))

/-- The `audioCapableInstances` set (inference.ts lines 229-234): instances
whose device has an audio-capable output (`out` or `in_out`) port. -/
def audioCapableInstancesOf (instances : List DeviceInstance) : List String :=
  toSetList ((instances.filter (fun i => i.device.ports.any (fun port =>
    (decide (port.direction = .output) || decide (port.direction = .inOut)) &&
      decide (PortSignal.audio ∈ port.signals)))).map (fun i => i.instanceId))

/-- The `midiCapableInstances` set (inference.ts lines 236-239). -/
def midiCapableInstancesOf (instances : List DeviceInstance) : List String :=
  toSetList ((instances.filter (fun i => i.device.ports.any (fun port =>
    decide (PortSignal.midi ∈ port.signals) ||
      decide (PortSignal.usb_midi ∈ port.signals)))).map (fun i => i.instanceId))

/-- The `fromDevice` lookup for a connection (inference.ts line 247). -/
def fromDeviceOf (instances : List DeviceInstance) (connection : Connection) : Option Device :=
  deviceMapGet instances connection.cFrom.instanceId

/-- The `toDevice` lookup for a connection (inference.ts line 248). -/
def toDeviceOf (instances : List DeviceInstance) (connection : Connection) : Option Device :=
  deviceMapGet instances connection.cTo.instanceId

/-- The `fromPort` lookup (inference.ts line 261): optional chaining makes
the port `undefined` whenever the device is missing. -/
def fromPortOf (instances : List DeviceInstance) (connection : Connection) : Option Port :=
  (fromDeviceOf instances connection).bind (fun d =>
    d.ports.find? (fun port => decide (port.id = connection.cFrom.portId)))

/-- The `toPort` lookup (inference.ts line 262). -/
def toPortOf (instances : List DeviceInstance) (connection : Connection) : Option Port :=
  (toDeviceOf instances connection).bind (fun d =>
    d.ports.find? (fun port => decide (port.id = connection.cTo.portId)))

/-- The signal overlap of a connection's two ports (inference.ts line 290);
empty when either port is missing. -/
def signalOverlapOf (instances : List DeviceInstance) (connection : Connection) :
    List PortSignal :=
  match fromPortOf instances connection, toPortOf instances connection with
  | some fp, some tp => intersection fp.signals tp.signals
  | _, _ => []

/-- Model of `fromDomain.toUpperCase()` on the two domain values. -/
def domainUpper : PortDomain → String
  | .audio => "AUDIO"
  | .midi => "MIDI"

/-- The `blockingIssues` bucket of one connection evaluation (inference.ts
lines 250-309), in push order: missing devices, missing ports, wrong
declared direction, then — when both ports are present — domain mismatch,
empty signal overlap, connector incompatibility. -/
def blockingIssuesOf (instances : List DeviceInstance) (connection : Connection) :
    List String :=
  let fromDevice := fromDeviceOf instances connection
  let toDevice := toDeviceOf instances connection
  let fromPort := fromPortOf instances connection
  let toPort := toPortOf instances connection
  (if fromDevice.isNone then ["Source device is no longer available."] else []) ++
  (if toDevice.isNone then ["Destination device is no longer available."] else []) ++
  (if fromPort.isNone then ["Source port not found on device."] else []) ++
  (if toPort.isNone then ["Destination port not found on device."] else []) ++
  (match fromPort with
   | some p =>
     if p.direction = .input then [p.label ++ " cannot send signals (input-only)."] else []
   | none => []) ++
  (match toPort with
   | some p =>
     if p.direction = .output then [p.label ++ " cannot receive signals (output-only)."] else []
   | none => []) ++
  (match fromPort, toPort with
   | some fp, some tp =>
     (match getPortDomain fp, getPortDomain tp with
      | some fd, some td =>
        if fd ≠ td then
          [fp.label ++ " (" ++ domainUpper fd ++ ") cannot connect to " ++
            tp.label ++ " (" ++ domainUpper td ++ ")."]
        else []
      | _, _ => []) ++
     (if (intersection fp.signals tp.signals).length = 0 then
        [fp.label ++ " (" ++ formatSignals fp.signals ++ ") does not share signals with " ++
          tp.label ++ " (" ++ formatSignals tp.signals ++ ")."]
      else []) ++
     (if (getConnectorCompatibility fp tp).compatible then []
      else
        [fp.label ++ " (" ++ describeConnector fp.connector ++ ") is not compatible with " ++
          tp.label ++ " (" ++ describeConnector tp.connector ++ ")."])
   | _, _ => [])

/-- Source `isValidConnection` (inference.ts lines 311-312). -/
def isValidOf (instances : List DeviceInstance) (connection : Connection) : Bool :=
  match fromPortOf instances connection, toPortOf instances connection with
  | some fp, some tp =>
    decide (0 < (intersection fp.signals tp.signals).length) &&
      (getConnectorCompatibility fp tp).compatible &&
      decide ((blockingIssuesOf instances connection).length = 0)
  | _, _ => false

/-- The `adapterDescription` of a connection (inference.ts lines 316-318):
present only when the resolver returned a nonempty adapter-code list. -/
def adapterDescriptionOf (instances : List DeviceInstance) (connection : Connection) :
    Option String :=
  match fromPortOf instances connection, toPortOf instances connection with
  | some fp, some tp =>
    match (getConnectorCompatibility fp tp).adapterCodes with
    | some (c :: cs) => some (formatAdapterChain (c :: cs))
    | _ => none
  | _, _ => none

/-- The balanced/unbalanced advisory text (inference.ts line 344). -/
def balancedMismatchMsg : String :=
  "Balanced/unbalanced audio mismatch: connection will work but becomes unbalanced (possible noise/level change)."

/-- The stereo-to-mono advisory text (inference.ts line 353). -/
def stereoMismatchMsg : String :=
  "Stereo-to-mono audio mismatch: one channel may be lost, or the mono result may sound wrong."

/-- The two electrical-wiring advisories (inference.ts lines 339-356),
in push order, as a function of the two ports' wiring values. The
`wiringPair` set membership tests compare against the two values. -/
def wiringAdvisories (fw tw : AudioWiring) : List String :=
  let pairHas : AudioWiring → Bool := fun v => decide (fw = v) || decide (tw = v)
  (if pairHas .balanced_mono && pairHas .unbalanced_mono then
    [balancedMismatchMsg]
   else []) ++
  (if pairHas .unbalanced_stereo && (pairHas .balanced_mono || pairHas .unbalanced_mono) then
    [stereoMismatchMsg]
   else [])

/-- The `advisoryMessages` bucket of one connection evaluation (inference.ts
lines 327-356): the adapter advisory, then the wiring advisories; empty
when the connection is not valid. -/
def advisoryMessagesOf (instances : List DeviceInstance) (connection : Connection) :
    List String :=
  match fromPortOf instances connection, toPortOf instances connection with
  | some fp, some tp =>
    if isValidOf instances connection then
      (match adapterDescriptionOf instances connection with
       | some d => ["Use " ++ d]
       | none => []) ++
      (match getAudioWiring fp, getAudioWiring tp with
       | some fw, some tw => wiringAdvisories fw tw
       | _, _ => [])
    else []
  | _, _ => []

/-- The Cable Suggestion produced for a valid connection (inference.ts
lines 314-334). -/
def cableOf (instances : List DeviceInstance) (connection : Connection) :
    Option CableSuggestion :=
  match fromPortOf instances connection, toPortOf instances connection with
  | some fp, some tp =>
    if isValidOf instances connection then
      let cc := getConnectorCompatibility fp tp
      let cableConnector := cc.resultingConnector.getD fp.connector
      let adapterDescription := adapterDescriptionOf instances connection
      some
        { id := connection.id ++ "-cable"
          description :=
            adapterDescription.getD
              (buildCableDescription cableConnector (intersection fp.signals tp.signals))
          connector := cableConnector
          ports := (connection.cFrom, connection.cTo)
          requiresAdapter := adapterDescription.map (fun d => "Use " ++ d)
          adapters := cc.adapterCodes }
    else none
  | _, _ => none

/-- The device display label of the `from` endpoint (inference.ts lines
358-359): declared display name, else stored device name, else raw id. -/
def fromDeviceLabelOf (instances : List DeviceInstance) (connection : Connection) : String :=
  match connection.cFrom.deviceName with
  | some n => n
  | none =>
    match fromDeviceOf instances connection with
    | some d => d.name
    | none => connection.cFrom.deviceId

/-- The device display label of the `to` endpoint (inference.ts line 360). -/
def toDeviceLabelOf (instances : List DeviceInstance) (connection : Connection) : String :=
  match connection.cTo.deviceName with
  | some n => n
  | none =>
    match toDeviceOf instances connection with
    | some d => d.name
    | none => connection.cTo.deviceId

/-- The workflow summary sentence of a valid connection (inference.ts lines
362-364). The source computes `summaryLabel = adapterDescription ??
cableSuggestion.description` where the description is itself
`adapterDescription ?? buildCableDescription(...)`, hence the nested
fallback below. -/
def summaryOf (instances : List DeviceInstance) (connection : Connection) : Option String :=
  match fromPortOf instances connection, toPortOf instances connection with
  | some fp, some tp =>
    if isValidOf instances connection then
      let cc := getConnectorCompatibility fp tp
      let cableConnector := cc.resultingConnector.getD fp.connector
      let adapterDescription := adapterDescriptionOf instances connection
      let summaryLabel :=
        adapterDescription.getD
          (adapterDescription.getD
            (buildCableDescription cableConnector (intersection fp.signals tp.signals)))
      let formatted := if strEndsWith summaryLabel "." then summaryLabel else summaryLabel ++ "."
      some (fromDeviceLabelOf instances connection ++ " → " ++
        toDeviceLabelOf instances connection ++ ": Use " ++ formatted)
    else none
  | _, _ => none

/-- The instance ids a valid MIDI connection adds to `midiChainInstances`
(inference.ts lines 367-371). -/
def midiChainAddOf (instances : List DeviceInstance) (connection : Connection) :
    List String :=
  if isValidOf instances connection &&
      decide (PortSignal.midi ∈ signalOverlapOf instances connection) then
    [connection.cFrom.instanceId, connection.cTo.instanceId]
  else []

/-- The instance ids a valid audio connection adds to `audioLinkedInstances`
(inference.ts lines 373-379): the `from` endpoint unless its port is
declared `in`, the `to` endpoint unless its port is declared `out`. -/
def audioLinkedAddOf (instances : List DeviceInstance) (connection : Connection) :
    List String :=
  match fromPortOf instances connection, toPortOf instances connection with
  | some fp, some tp =>
    if isValidOf instances connection &&
        decide (PortSignal.audio ∈ signalOverlapOf instances connection) then
      (if fp.direction = .input then [] else [connection.cFrom.instanceId]) ++
      (if tp.direction = .output then [] else [connection.cTo.instanceId])
    else []
  | _, _ => []

/-- The instance ids a valid audio connection adds to
`audioToMonitorInstances` (inference.ts lines 381-386). -/
def audioToMonitorAddOf (instances : List DeviceInstance) (monitors : List String)
    (connection : Connection) : List String :=
  if isValidOf instances connection &&
      decide (PortSignal.audio ∈ signalOverlapOf instances connection) then
    (if connection.cTo.instanceId ∈ monitors then [connection.cFrom.instanceId] else []) ++
    (if connection.cFrom.instanceId ∈ monitors then [connection.cTo.instanceId] else [])
  else []

/-- Final per-connection status (inference.ts lines 394-399). -/
def statusOf (blocking advisory : List String) : ConnectionStatus :=
  if 0 < blocking.length then .invalid
  else if 0 < advisory.length then .pending
  else .valid

/-- The re-evaluated output connection (inference.ts lines 401-405). -/
def updateConnection (instances : List DeviceInstance) (connection : Connection) :
    Connection :=
  let blocking := blockingIssuesOf instances connection
  let advisory := advisoryMessagesOf instances connection
  let combined := blocking ++ advisory
  { connection with
    status := statusOf blocking advisory
    issues := if 0 < combined.length then some combined else none }

/-- Accumulator of the per-connection loop of `inferConnections`. -/
structure InferState where
  updatedConnections : List Connection
  warnings : List String
  requiredCables : List CableSuggestion
  summaries : List String
  midiChainInstances : List String
  audioLinkedInstances : List String
  audioToMonitorInstances : List String
  deriving Repr

/-- One iteration of the `connections.forEach` loop (inference.ts lines
246-406). The source also adds the adapter advisory to the warning set
inside the valid-connection block (line 330) before folding in
`combinedIssues` (line 392); with set semantics and an empty blocking
bucket this produces the same list, so the single `insertAll` below covers
both additions. -/
def inferStep (instances : List DeviceInstance) (monitors : List String)
    (st : InferState) (connection : Connection) : InferState :=
  { updatedConnections := st.updatedConnections ++ [updateConnection instances connection]
    warnings := insertAll st.warnings
      (blockingIssuesOf instances connection ++ advisoryMessagesOf instances connection)
    requiredCables := st.requiredCables ++ (cableOf instances connection).toList
    summaries := st.summaries ++ (summaryOf instances connection).toList
    midiChainInstances :=
      insertAll st.midiChainInstances (midiChainAddOf instances connection)
    audioLinkedInstances :=
      insertAll st.audioLinkedInstances (audioLinkedAddOf instances connection)
    audioToMonitorInstances :=
      insertAll st.audioToMonitorInstances (audioToMonitorAddOf instances monitors connection) }

/-- Source `formatDeviceList` (inference.ts lines 567-571). -/
def formatDeviceList (instanceIds : List String) (instances : List DeviceInstance) : String :=
  String.intercalate ", " (instanceIds.map (fun instanceId =>
    match deviceMapGet instances instanceId with
    | some d => d.name
    | none => instanceId))

/-- The unrouted-audio global pass (inference.ts lines 408-425). -/
def unroutedPass (deviceInstances : List DeviceInstance)
    (monitorInstances audioCapableInstances : List String) (st : InferState)
    (w : List String) : List String :=
  if 1 < st.midiChainInstances.length then
    let unroutedMidiAudio := st.midiChainInstances.filter (fun instanceId =>
      decide (instanceId ∈ audioCapableInstances) &&
        !(decide (instanceId ∈ st.audioLinkedInstances)) &&
        !(decide (instanceId ∈ monitorInstances)))
    if 0 < unroutedMidiAudio.length then
      let w1 :=
        if 0 < monitorInstances.length ∧ st.audioToMonitorInstances.length ≤ 1 ∧
            1 < audioCapableInstances.length then
          insertSet w "Multiple MIDI-linked devices detected, but only one audio feed reaches monitors. Route additional outputs (e.g., into a mixer) so every device can be heard."
        else w
      insertSet w1 ("Audio from " ++ formatDeviceList unroutedMidiAudio deviceInstances ++
        " is not routed to any destination. Connect these devices to a mixer, audio interface, or monitors.")
    else w
  else w

/-- The disconnected-MIDI-device global pass (inference.ts lines 429-435). -/
def unclockedPass (deviceInstances : List DeviceInstance)
    (midiCapableInstances midiChainInstances : List String) (w : List String) : List String :=
  (midiCapableInstances.filter (fun instanceId =>
    !(decide (instanceId ∈ midiChainInstances)))).foldl (fun acc instanceId =>
      match deviceMapGet deviceInstances instanceId with
      | some d =>
        insertSet acc (d.name ++ " has MIDI ports but is not connected to the MIDI clock network.")
      | none => acc) w

/-- The missing-clock-master global pass (inference.ts lines 437-439). -/
def clockMasterMissingPass (midiCapableInstances midiMasters : List String)
    (w : List String) : List String :=
  if 0 < midiCapableInstances.length ∧ midiMasters.length = 0 then
    insertSet w "Set a clock master so your MIDI devices stay in sync."
  else w

/-- The multiple-clock-masters global pass (inference.ts lines 441-443). -/
def multipleMastersPass (midiMasters : List String) (w : List String) : List String :=
  if 1 < midiMasters.length then
    insertSet w "Multiple MIDI clock masters selected. Choose only one master clock device."
  else w

/-- The per-master global pass (inference.ts lines 445-459). -/
def mastersPass (deviceInstances : List DeviceInstance)
    (midiCapableInstances midiChainInstances midiMasters : List String)
    (w : List String) : List String :=
  midiMasters.foldl (fun acc instanceId =>
    if !(decide (instanceId ∈ midiCapableInstances)) then
      match deviceMapGet deviceInstances instanceId with
      | some d =>
        insertSet acc (d.name ++ " is marked as clock master but has no MIDI clock outputs.")
      | none => acc
    else if !(decide (instanceId ∈ midiChainInstances)) then
      match deviceMapGet deviceInstances instanceId with
      | some d =>
        insertSet acc (d.name ++ " is the clock master but is not connected to any MIDI devices.")
      | none => acc
    else acc) w

/-- Source `inferConnections` (inference.ts lines 207-467): the per-connection
loop followed by the global passes (unrouted audio, disconnected MIDI
devices, clock-master checks), each factored out above in source order. -/
def inferConnections (deviceInstances : List DeviceInstance)
    (connections : List Connection) (options : InferenceOptions := {}) : InferenceResult :=
  let monitorInstances := monitorInstancesOf deviceInstances
  let audioCapableInstances := audioCapableInstancesOf deviceInstances
  let midiCapableInstances := midiCapableInstancesOf deviceInstances
  let st := connections.foldl (inferStep deviceInstances monitorInstances)
    { updatedConnections := [], warnings := [], requiredCables := [], summaries := []
      midiChainInstances := [], audioLinkedInstances := [], audioToMonitorInstances := [] }
  let midiMasters := toSetList (options.clockMasterIds.getD [])
  let w := unroutedPass deviceInstances monitorInstances audioCapableInstances st st.warnings
  let w := unclockedPass deviceInstances midiCapableInstances st.midiChainInstances w
  let w := clockMasterMissingPass midiCapableInstances midiMasters w
  let w := multipleMastersPass midiMasters w
  let w := mastersPass deviceInstances midiCapableInstances st.midiChainInstances midiMasters w
  { connections := st.updatedConnections
    warnings := w
    requiredCables := st.requiredCables
    summaries := st.summaries }

/-- Source `isOutput` (recommendations.ts lines 9-14): membership in
`OUTPUT_DIRECTIONS = {out, in_out}`. -/
def isOutput (port : Port) : Bool :=
  decide (port.direction = .output) || decide (port.direction = .inOut)

/-- Source `isInput` (recommendations.ts lines 10, 16-18): membership in
`INPUT_DIRECTIONS = {in, in_out}`. -/
def isInput (port : Port) : Bool :=
  decide (port.direction = .input) || decide (port.direction = .inOut)

/-- Source `buildConnections` (recommendations.ts lines 20-60): every
output-capable port of `source` paired with every input-capable port of
`target`, in port order. -/
def buildConnections (source target : Device)
    (sourceInstanceId targetInstanceId : String) : List Connection :=
  source.ports.flatMap (fun fromPort =>
    if isOutput fromPort then
      target.ports.flatMap (fun toPort =>
        if isInput toPort then
          [{ id := sourceInstanceId ++ ":" ++ fromPort.id ++ "->" ++
               targetInstanceId ++ ":" ++ toPort.id
             cFrom :=
               { instanceId := sourceInstanceId, deviceId := source.id
                 portId := fromPort.id, deviceName := some source.name
                 portLabel := some fromPort.label }
             cTo :=
               { instanceId := targetInstanceId, deviceId := target.id
                 portId := toPort.id, deviceName := some target.name
                 portLabel := some toPort.label }
             status := .pending }]
        else [])
    else [])

/-- The arrow glyphs the source file of `recommendBetweenDevices`
interpolates between the two device labels (recommendations.ts line 83):
the bytes there decode to the three characters U+00E2, U+2020, U+2019 — a
double-encoded (mojibake) rendering of the arrow U+2192 that
`inferConnections` uses in its workflow summaries. -/
def brokenArrow : String :=
  String.mk [Char.ofNat 0xE2, Char.ofNat 0x2020, Char.ofNat 0x2019]

/-- Insertion sort on strings, modelling
`Array.from(set).sort((a, b) => a.localeCompare(b))` with the default
locale comparison taken as code-point lexicographic order. -/
def insertSorted (x : String) : List String → List String
  | [] => [x]
  | y :: ys => if x < y then x :: y :: ys else y :: insertSorted x ys

/-- Sort an insertion-ordered list lexicographically. -/
def sortStrings (l : List String) : List String := l.foldl (fun acc x => insertSorted x acc) []

/-- Source `recommendBetweenDevices` (recommendations.ts lines 63-95). -/
def recommendBetweenDevices (deviceA deviceB : Device) : List String :=
  let instanceA : DeviceInstance := { instanceId := "device-" ++ deviceA.id, device := deviceA }
  let instanceB : DeviceInstance := { instanceId := "device-" ++ deviceB.id, device := deviceB }
  let connections :=
    buildConnections deviceA deviceB instanceA.instanceId instanceB.instanceId ++
    buildConnections deviceB deviceA instanceB.instanceId instanceA.instanceId
  if connections.length = 0 then []
  else
    let inference := inferConnections [instanceA, instanceB] connections {}
    let recommendations := inference.requiredCables.foldl (fun acc cable =>
      let fromLabel := cable.ports.1.deviceName.getD cable.ports.1.deviceId
      let toLabel := cable.ports.2.deviceName.getD cable.ports.2.deviceId
      insertSet acc (fromLabel ++ " " ++ brokenArrow ++ " " ++ toLabel ++
        ": Use " ++ cable.description)) []
    let recommendations :=
      if recommendations.length = 0 then
        inference.summaries.foldl (fun acc summary =>
          if summary ≠ "" then insertSet acc summary else acc) []
      else recommendations
    sortStrings recommendations

/-! ## Concrete fixtures

Small devices and connections used to instantiate the theorems below:
a Keystep-style TRS-MIDI output into a Digitakt-style DIN-5 input
(spec Scenario B), two synths with an audio link and a MIDI link plus an
unconnected monitor (spec Scenario E), and a pair of ports whose equal
connector codes carry different physical-connector overrides. -/

def keystepMidiOut : Port :=
  { id := "midi-out", label := "MIDI Out", direction := .output,
    connector := .trs_midi, signals := [.midi] }

def digitaktMidiIn : Port :=
  { id := "midi-in", label := "MIDI In", direction := .input,
    connector := .din5, signals := [.midi] }

def keystep : Device := { id := "keystep", name := "Keystep", ports := [keystepMidiOut] }

def digitakt : Device := { id := "digitakt", name := "Digitakt", ports := [digitaktMidiIn] }

def keystepInstance : DeviceInstance := { instanceId := "inst-keystep", device := keystep }

def digitaktInstance : DeviceInstance := { instanceId := "inst-digitakt", device := digitakt }

def keystepToDigitakt : Connection :=
  { id := "conn-1"
    cFrom := { instanceId := "inst-keystep", deviceId := "keystep", portId := "midi-out" }
    cTo := { instanceId := "inst-digitakt", deviceId := "digitakt", portId := "midi-in" }
    status := .pending }

def digitaktToKeystep : Connection :=
  { id := "conn-rev"
    cFrom := { instanceId := "inst-digitakt", deviceId := "digitakt", portId := "midi-in" }
    cTo := { instanceId := "inst-keystep", deviceId := "keystep", portId := "midi-out" }
    status := .pending }

def synthOne : Device :=
  { id := "synth-one", name := "Synth One"
    ports :=
      [{ id := "audio-out", label := "Audio Out", direction := .output,
         connector := .ts_6_35mm, signals := [.audio] },
       { id := "midi-out", label := "MIDI Out", direction := .output,
         connector := .din_5, signals := [.midi] }] }

def synthTwo : Device :=
  { id := "synth-two", name := "Synth Two"
    ports :=
      [{ id := "audio-in", label := "Audio In", direction := .input,
         connector := .ts_6_35mm, signals := [.audio] },
       { id := "audio-out", label := "Audio Out", direction := .output,
         connector := .ts_6_35mm, signals := [.audio] },
       { id := "midi-in", label := "MIDI In", direction := .input,
         connector := .din_5, signals := [.midi] }] }

def monitorSpeaker : Device :=
  { id := "monitor", name := "Monitor"
    ports :=
      [{ id := "audio-in", label := "Input", direction := .input,
         connector := .ts_6_35mm, signals := [.audio] }]
    tags := some ["monitor"] }

def synthOneInstance : DeviceInstance := { instanceId := "inst-s1", device := synthOne }

def synthTwoInstance : DeviceInstance := { instanceId := "inst-s2", device := synthTwo }

def monitorInstance : DeviceInstance := { instanceId := "inst-mon", device := monitorSpeaker }

def synthAudioConn : Connection :=
  { id := "conn-audio"
    cFrom := { instanceId := "inst-s1", deviceId := "synth-one", portId := "audio-out" }
    cTo := { instanceId := "inst-s2", deviceId := "synth-two", portId := "audio-in" }
    status := .pending }

def synthMidiConn : Connection :=
  { id := "conn-midi"
    cFrom := { instanceId := "inst-s1", deviceId := "synth-one", portId := "midi-out" }
    cTo := { instanceId := "inst-s2", deviceId := "synth-two", portId := "midi-in" }
    status := .pending }

def usbOverrideTrsMidi : Port :=
  { id := "p1", label := "USB jack relabelled TRS-MIDI", direction := .output,
    connector := .usb_c, signals := [.midi], physicalConnector := some .trs_midi }

def usbOverrideDin5 : Port :=
  { id := "p2", label := "USB jack relabelled DIN-5", direction := .input,
    connector := .usb_c, signals := [.midi], physicalConnector := some .din5 }

/-! ## Helper lemmas about the set model and the engine's folds -/

theorem mem_insertSet_self (l : List String) (x : String) : x ∈ insertSet l x := by
  unfold insertSet
  split
  · assumption
  · exact List.mem_append_right _ (List.mem_singleton.mpr rfl)

theorem mem_insertSet_of_mem (l : List String) (x y : String) (h : y ∈ l) :
    y ∈ insertSet l x := by
  unfold insertSet
  split
  · exact h
  · exact List.mem_append_left _ h

theorem insertSet_nodup {l : List String} {x : String} (h : l.Nodup) :
    (insertSet l x).Nodup := by
  unfold insertSet
  split
  · exact h
  · next hx => simp [List.nodup_append, h, hx]

theorem mem_insertAll_of_mem (xs : List String) :
    ∀ (l : List String) (y : String), y ∈ l → y ∈ insertAll l xs := by
  induction xs with
  | nil => intro l y h; exact h
  | cons a as ih =>
    intro l y h
    simp only [insertAll, List.foldl_cons]
    exact ih (insertSet l a) y (mem_insertSet_of_mem _ _ _ h)

theorem insertAll_nodup (xs : List String) :
    ∀ {l : List String}, l.Nodup → (insertAll l xs).Nodup := by
  induction xs with
  | nil => intro l h; exact h
  | cons a as ih =>
    intro l h
    simp only [insertAll, List.foldl_cons]
    exact ih (insertSet_nodup h)

theorem foldl_invariant {α β : Type} (P : β → Prop) (f : β → α → β)
    (hf : ∀ b a, P b → P (f b a)) :
    ∀ (l : List α) (b : β), P b → P (l.foldl f b) := by
  intro l
  induction l with
  | nil => intro b h; exact h
  | cons a as ih => intro b h; exact ih _ (hf _ _ h)

theorem unroutedPass_nodup (I : List DeviceInstance) (mon ac : List String)
    (st : InferState) {w : List String} (h : w.Nodup) :
    (unroutedPass I mon ac st w).Nodup := by
  simp only [unroutedPass]
  split
  · split
    · split
      · exact insertSet_nodup (insertSet_nodup h)
      · exact insertSet_nodup h
    · exact h
  · exact h

theorem mem_unroutedPass_of_mem (I : List DeviceInstance) (mon ac : List String)
    (st : InferState) {w : List String} {y : String} (h : y ∈ w) :
    y ∈ unroutedPass I mon ac st w := by
  simp only [unroutedPass]
  split
  · split
    · split
      · exact mem_insertSet_of_mem _ _ _ (mem_insertSet_of_mem _ _ _ h)
      · exact mem_insertSet_of_mem _ _ _ h
    · exact h
  · exact h

theorem unclockedPass_nodup (I : List DeviceInstance) (mc mchain : List String)
    {w : List String} (h : w.Nodup) : (unclockedPass I mc mchain w).Nodup := by
  refine foldl_invariant List.Nodup _ ?_ _ _ h
  intro b a hb
  dsimp only
  split
  · exact insertSet_nodup hb
  · exact hb

theorem mem_unclockedPass_of_mem (I : List DeviceInstance) (mc mchain : List String)
    {w : List String} {y : String} (h : y ∈ w) : y ∈ unclockedPass I mc mchain w := by
  refine foldl_invariant (fun l => y ∈ l) _ ?_ _ _ h
  intro b a hb
  dsimp only
  split
  · exact mem_insertSet_of_mem _ _ _ hb
  · exact hb

theorem clockMasterMissingPass_nodup (mc mm : List String) {w : List String}
    (h : w.Nodup) : (clockMasterMissingPass mc mm w).Nodup := by
  unfold clockMasterMissingPass
  split
  · exact insertSet_nodup h
  · exact h

theorem mem_clockMasterMissingPass_of_mem (mc mm : List String) {w : List String}
    {y : String} (h : y ∈ w) : y ∈ clockMasterMissingPass mc mm w := by
  unfold clockMasterMissingPass
  split
  · exact mem_insertSet_of_mem _ _ _ h
  · exact h

theorem clockMasterMissingPass_adds (mc mm : List String) (w : List String)
    (hc : 0 < mc.length) (hm : mm.length = 0) :
    "Set a clock master so your MIDI devices stay in sync." ∈
      clockMasterMissingPass mc mm w := by
  unfold clockMasterMissingPass
  rw [if_pos ⟨hc, hm⟩]
  exact mem_insertSet_self _ _

theorem multipleMastersPass_nodup (mm : List String) {w : List String}
    (h : w.Nodup) : (multipleMastersPass mm w).Nodup := by
  unfold multipleMastersPass
  split
  · exact insertSet_nodup h
  · exact h

theorem mem_multipleMastersPass_of_mem (mm : List String) {w : List String}
    {y : String} (h : y ∈ w) : y ∈ multipleMastersPass mm w := by
  unfold multipleMastersPass
  split
  · exact mem_insertSet_of_mem _ _ _ h
  · exact h

theorem multipleMastersPass_adds (mm : List String) (w : List String)
    (hm : 1 < mm.length) :
    "Multiple MIDI clock masters selected. Choose only one master clock device." ∈
      multipleMastersPass mm w := by
  unfold multipleMastersPass
  rw [if_pos hm]
  exact mem_insertSet_self _ _

theorem mastersPass_nodup (I : List DeviceInstance) (mc mchain mm : List String)
    {w : List String} (h : w.Nodup) : (mastersPass I mc mchain mm w).Nodup := by
  refine foldl_invariant List.Nodup _ ?_ _ _ h
  intro b a hb
  dsimp only
  split
  · split
    · exact insertSet_nodup hb
    · exact hb
  · split
    · split
      · exact insertSet_nodup hb
      · exact hb
    · exact hb

theorem mem_mastersPass_of_mem (I : List DeviceInstance) (mc mchain mm : List String)
    {w : List String} {y : String} (h : y ∈ w) : y ∈ mastersPass I mc mchain mm w := by
  refine foldl_invariant (fun l => y ∈ l) _ ?_ _ _ h
  intro b a hb
  dsimp only
  split
  · split
    · exact mem_insertSet_of_mem _ _ _ hb
    · exact hb
  · split
    · split
      · exact mem_insertSet_of_mem _ _ _ hb
      · exact hb
    · exact hb

theorem foldl_inferStep_warnings_nodup (I : List DeviceInstance) (M : List String)
    (conns : List Connection) (st : InferState) (h : st.warnings.Nodup) :
    ((conns.foldl (inferStep I M) st).warnings).Nodup := by
  refine foldl_invariant (fun (s : InferState) => s.warnings.Nodup) _ ?_ _ _ h
  intro b a hb
  exact insertAll_nodup _ hb

theorem foldl_inferStep_updated (I : List DeviceInstance) (M : List String)
    (conns : List Connection) :
    ∀ st : InferState,
      (conns.foldl (inferStep I M) st).updatedConnections
        = st.updatedConnections ++ conns.map (updateConnection I) := by
  induction conns with
  | nil => intro st; simp
  | cons c cs ih =>
    intro st
    simp only [List.foldl_cons, List.map_cons]
    rw [ih]
    simp [inferStep, List.append_assoc]

theorem foldl_inferStep_cables (I : List DeviceInstance) (M : List String)
    (conns : List Connection) :
    ∀ st : InferState,
      (conns.foldl (inferStep I M) st).requiredCables
        = st.requiredCables ++ conns.filterMap (cableOf I) := by
  induction conns with
  | nil => intro st; simp
  | cons c cs ih =>
    intro st
    simp only [List.foldl_cons, List.filterMap_cons]
    rw [ih]
    cases h : cableOf I c <;> simp [inferStep, h, List.append_assoc]

theorem foldl_inferStep_summaries (I : List DeviceInstance) (M : List String)
    (conns : List Connection) :
    ∀ st : InferState,
      (conns.foldl (inferStep I M) st).summaries
        = st.summaries ++ conns.filterMap (summaryOf I) := by
  induction conns with
  | nil => intro st; simp
  | cons c cs ih =>
    intro st
    simp only [List.foldl_cons, List.filterMap_cons]
    rw [ih]
    cases h : summaryOf I c <;> simp [inferStep, h, List.append_assoc]

theorem inferConnections_connections (I : List DeviceInstance)
    (conns : List Connection) (opts : InferenceOptions) :
    (inferConnections I conns opts).connections = conns.map (updateConnection I) := by
  simp only [inferConnections]
  rw [foldl_inferStep_updated]
  rfl

theorem inferConnections_cables (I : List DeviceInstance)
    (conns : List Connection) (opts : InferenceOptions) :
    (inferConnections I conns opts).requiredCables = conns.filterMap (cableOf I) := by
  simp only [inferConnections]
  rw [foldl_inferStep_cables]
  rfl

theorem inferConnections_summaries (I : List DeviceInstance)
    (conns : List Connection) (opts : InferenceOptions) :
    (inferConnections I conns opts).summaries = conns.filterMap (summaryOf I) := by
  simp only [inferConnections]
  rw [foldl_inferStep_summaries]
  rfl

theorem statusOf_eq_invalid_iff (b a : List String) :
    statusOf b a = .invalid ↔ b ≠ [] := by
  cases b <;> cases a <;> simp [statusOf]

theorem statusOf_eq_pending_iff (b a : List String) :
    statusOf b a = .pending ↔ (b = [] ∧ a ≠ []) := by
  cases b <;> cases a <;> simp [statusOf]

theorem statusOf_eq_valid_iff (b a : List String) :
    statusOf b a = .valid ↔ (b = [] ∧ a = []) := by
  cases b <;> cases a <;> simp [statusOf]

theorem isValidOf_false_of_fromPort_none (I : List DeviceInstance) (conn : Connection)
    (hfp : fromPortOf I conn = none) : isValidOf I conn = false := by
  simp [isValidOf, hfp]

theorem isValidOf_false_of_toPort_none (I : List DeviceInstance) (conn : Connection)
    (htp : toPortOf I conn = none) : isValidOf I conn = false := by
  unfold isValidOf
  rw [htp]
  rcases fromPortOf I conn with _ | fp <;> rfl

theorem blocking_ne_nil_of_fromPort_none (I : List DeviceInstance) (conn : Connection)
    (hfp : fromPortOf I conn = none) : blockingIssuesOf I conn ≠ [] := by
  simp [blockingIssuesOf, hfp]

theorem blocking_ne_nil_of_toPort_none (I : List DeviceInstance) (conn : Connection)
    (htp : toPortOf I conn = none) : blockingIssuesOf I conn ≠ [] := by
  simp [blockingIssuesOf, htp]

/-- Lemma: `isValidConnection` holds exactly when the blocking bucket is empty:
an empty signal overlap or an incompatible connector pair would itself
have pushed a blocking issue, so the two extra conjuncts of the source's
`isValidConnection` are implied by the empty bucket. -/
theorem isValid_iff_blocking_nil (I : List DeviceInstance) (conn : Connection) :
    isValidOf I conn = true ↔ blockingIssuesOf I conn = [] := by
  rcases hfp : fromPortOf I conn with _ | fp
  · rw [isValidOf_false_of_fromPort_none I conn hfp]
    simp [blocking_ne_nil_of_fromPort_none I conn hfp]
  · rcases htp : toPortOf I conn with _ | tp
    · rw [isValidOf_false_of_toPort_none I conn htp]
      simp [blocking_ne_nil_of_toPort_none I conn htp]
    · constructor
      · intro h
        unfold isValidOf at h
        rw [hfp, htp] at h
        simp only [Bool.and_eq_true, decide_eq_true_eq] at h
        exact List.eq_nil_of_length_eq_zero h.2
      · intro h
        have h8 : ¬ ((intersection fp.signals tp.signals).length = 0) := by
          intro hlen
          simp [blockingIssuesOf, hfp, htp, hlen] at h
        have h9 : (getConnectorCompatibility fp tp).compatible = true := by
          by_contra h9
          rw [Bool.not_eq_true] at h9
          simp [blockingIssuesOf, hfp, htp, h9] at h
        unfold isValidOf
        rw [hfp, htp]
        simp [Nat.pos_of_ne_zero h8, h9, h]

theorem cableOf_isSome (I : List DeviceInstance) (conn : Connection) :
    (cableOf I conn).isSome = isValidOf I conn := by
  rcases hfp : fromPortOf I conn with _ | fp
  · rw [isValidOf_false_of_fromPort_none I conn hfp]
    simp [cableOf, hfp]
  · rcases htp : toPortOf I conn with _ | tp
    · rw [isValidOf_false_of_toPort_none I conn htp]
      simp [cableOf, hfp, htp]
    · cases hv : isValidOf I conn <;> simp [cableOf, hfp, htp, hv]

theorem summaryOf_isSome (I : List DeviceInstance) (conn : Connection) :
    (summaryOf I conn).isSome = isValidOf I conn := by
  rcases hfp : fromPortOf I conn with _ | fp
  · rw [isValidOf_false_of_fromPort_none I conn hfp]
    simp [summaryOf, hfp]
  · rcases htp : toPortOf I conn with _ | tp
    · rw [isValidOf_false_of_toPort_none I conn htp]
      simp [summaryOf, hfp, htp]
    · cases hv : isValidOf I conn <;> simp [summaryOf, hfp, htp, hv]

theorem use_prefix_ne_balanced (d : String) : "Use " ++ d ≠ balancedMismatchMsg := by
  intro h
  have hd := congrArg String.data h
  rw [String.data_append] at hd
  simp [String.data, balancedMismatchMsg] at hd

theorem use_prefix_ne_stereo (d : String) : "Use " ++ d ≠ stereoMismatchMsg := by
  intro h
  have hd := congrArg String.data h
  rw [String.data_append] at hd
  simp [String.data, stereoMismatchMsg] at hd

theorem wiringAdvisories_count : ∀ (a b : AudioWiring),
    (wiringAdvisories a b).count balancedMismatchMsg +
      (wiringAdvisories a b).count stereoMismatchMsg ≤ 1 := by
  decide

theorem cable_isSome_iff_status (I : List DeviceInstance) (c : Connection) :
    (cableOf I c).isSome = true ↔ (updateConnection I c).status ≠ .invalid := by
  rw [cableOf_isSome, isValid_iff_blocking_nil]
  show _ ↔ statusOf (blockingIssuesOf I c) (advisoryMessagesOf I c) ≠ .invalid
  rw [Ne, statusOf_eq_invalid_iff, not_not]

theorem cable_isSome_eq_decide (I : List DeviceInstance) (c : Connection) :
    (cableOf I c).isSome = decide ((updateConnection I c).status ≠ ConnectionStatus.invalid) := by
  cases h : (cableOf I c).isSome with
  | false =>
    symm
    rw [decide_eq_false_iff_not]
    intro hp
    rw [(cable_isSome_iff_status I c).mpr hp] at h
    cases h
  | true =>
    symm
    rw [decide_eq_true_eq]
    exact (cable_isSome_iff_status I c).mp h

theorem length_filterMap_eq_length_filter {α β : Type} (f : α → Option β) (p : α → Bool)
    (h : ∀ a, (f a).isSome = p a) :
    ∀ l : List α, (l.filterMap f).length = (l.filter p).length := by
  intro l
  induction l with
  | nil => rfl
  | cons a as ih =>
    rw [List.filterMap_cons, List.filter_cons]
    cases hf : f a with
    | none =>
      have hp : p a = false := by rw [← h a, hf]; rfl
      rw [hp]
      simpa using ih
    | some b =>
      have hp : p a = true := by rw [← h a, hf]; rfl
      rw [hp]
      simpa using ih

theorem length_filterMap_congr {α β γ : Type} (f : α → Option β) (g : α → Option γ)
    (h : ∀ a, (f a).isSome = (g a).isSome) :
    ∀ l : List α, (l.filterMap f).length = (l.filterMap g).length := by
  intro l
  induction l with
  | nil => rfl
  | cons a as ih =>
    rw [List.filterMap_cons, List.filterMap_cons]
    cases hf : f a with
    | none =>
      have hg : g a = none := by
        have hh := h a
        rw [hf] at hh
        cases hga : g a with
        | none => rfl
        | some c => rw [hga] at hh; cases hh
      rw [hg]
      exact ih
    | some b =>
      have : (g a).isSome = true := by rw [← h a, hf]; rfl
      obtain ⟨c, hg⟩ := Option.isSome_iff_exists.mp this
      rw [hg]
      simpa using ih

/-! ## The claims -/

/-- C1: for every evaluated connection, the output status is `invalid`
exactly when at least one blocking issue was detected, otherwise `pending`
exactly when at least one advisory message was produced, otherwise
`valid`; and the output `issues` list is the blocking issues followed by
the advisory messages, in detection order, omitted entirely when both
buckets are empty. -/
theorem connection_status_and_issues (I : List DeviceInstance)
    (conns : List Connection) (opts : InferenceOptions) (i : Nat)
    (h : i < conns.length) :
    ∃ oc, (inferConnections I conns opts).connections[i]? = some oc ∧
      (oc.status = .invalid ↔ blockingIssuesOf I conns[i] ≠ []) ∧
      (oc.status = .pending ↔
        (blockingIssuesOf I conns[i] = [] ∧ advisoryMessagesOf I conns[i] ≠ [])) ∧
      (oc.status = .valid ↔
        (blockingIssuesOf I conns[i] = [] ∧ advisoryMessagesOf I conns[i] = [])) ∧
      oc.issues =
        (if blockingIssuesOf I conns[i] ++ advisoryMessagesOf I conns[i] = [] then none
         else some (blockingIssuesOf I conns[i] ++ advisoryMessagesOf I conns[i])) := by
  refine ⟨updateConnection I conns[i], ?_, ?_, ?_, ?_, ?_⟩
  · rw [inferConnections_connections]
    simp [List.getElem?_map, List.getElem?_eq_getElem h]
  · exact statusOf_eq_invalid_iff _ _
  · exact statusOf_eq_pending_iff _ _
  · exact statusOf_eq_valid_iff _ _
  · show (if 0 < (blockingIssuesOf I conns[i] ++ advisoryMessagesOf I conns[i]).length
          then some (blockingIssuesOf I conns[i] ++ advisoryMessagesOf I conns[i]) else none) = _
    cases hcomb : blockingIssuesOf I conns[i] ++ advisoryMessagesOf I conns[i] <;>
      simp [hcomb]

/-- Witness for C1 at the Keystep → Digitakt connection. -/
theorem connection_status_and_issues_witness :
    ∃ oc, (inferConnections [keystepInstance, digitaktInstance] [keystepToDigitakt]
        {}).connections[0]? = some oc ∧
      (oc.status = .invalid ↔
        blockingIssuesOf [keystepInstance, digitaktInstance] keystepToDigitakt ≠ []) := by
  obtain ⟨oc, h1, h2, -⟩ :=
    connection_status_and_issues [keystepInstance, digitaktInstance] [keystepToDigitakt]
      {} 0 (by decide)
  exact ⟨oc, h1, h2⟩

/-- C2: the Compatibility Resolver is symmetric — swapping the two ports
preserves the compatibility verdict and the adapter-code chain. -/
theorem resolver_symmetric (p q : Port) :
    (getConnectorCompatibility p q).compatible = (getConnectorCompatibility q p).compatible ∧
    (getConnectorCompatibility p q).adapterCodes = (getConnectorCompatibility q p).adapterCodes := by
  have key : ∀ (c1 : PortConnector) (o1 : Option PhysicalConnector)
      (c2 : PortConnector) (o2 : Option PhysicalConnector),
      (gccKey c1 o1 c2 o2).compatible = (gccKey c2 o2 c1 o1).compatible ∧
      (gccKey c1 o1 c2 o2).adapterCodes = (gccKey c2 o2 c1 o1).adapterCodes := by
    decide
  exact key p.connector p.physicalConnector q.connector q.physicalConnector

/-- C3 counterexample: the Keystep → Digitakt adapter connection ends with
final status `pending`, yet exactly one cable suggestion (and one summary)
is produced while no output connection has status `valid` — so cables are
not "one per connection whose final status is `valid`". -/
theorem cable_for_pending_connection_counterexample :
    (inferConnections [keystepInstance, digitaktInstance] [keystepToDigitakt]
        {}).requiredCables.length = 1 ∧
    (inferConnections [keystepInstance, digitaktInstance] [keystepToDigitakt]
        {}).summaries.length = 1 ∧
    ((inferConnections [keystepInstance, digitaktInstance] [keystepToDigitakt]
        {}).connections.filter
          (fun c => decide (c.status = ConnectionStatus.valid))).length = 0 ∧
    (inferConnections [keystepInstance, digitaktInstance] [keystepToDigitakt]
        {}).connections.map (fun c => c.status) = [ConnectionStatus.pending] := by
  refine ⟨rfl, rfl, rfl, rfl⟩

/-- C3 (amended): the required-cables output contains exactly one Cable
Suggestion per output connection whose final status is not `invalid`
(`valid` or `pending`), in input-connection order, and likewise exactly
one workflow summary per such connection in the same order. -/
theorem cables_per_noninvalid_connection (I : List DeviceInstance)
    (conns : List Connection) (opts : InferenceOptions) :
    (inferConnections I conns opts).requiredCables = conns.filterMap (cableOf I) ∧
    (inferConnections I conns opts).summaries = conns.filterMap (summaryOf I) ∧
    (inferConnections I conns opts).requiredCables.length =
      ((inferConnections I conns opts).connections.filter
        (fun c => decide (c.status ≠ ConnectionStatus.invalid))).length ∧
    (inferConnections I conns opts).summaries.length =
      (inferConnections I conns opts).requiredCables.length := by
  refine ⟨inferConnections_cables I conns opts, inferConnections_summaries I conns opts, ?_, ?_⟩
  · rw [inferConnections_cables, inferConnections_connections, List.filter_map,
      List.length_map]
    exact length_filterMap_eq_length_filter (cableOf I) _
      (fun c => cable_isSome_eq_decide I c) conns
  · rw [inferConnections_cables, inferConnections_summaries]
    exact length_filterMap_congr (summaryOf I) (cableOf I)
      (fun c => by rw [summaryOf_isSome, cableOf_isSome]) conns

/-- C4 counterexample: a synth's audio output validly connected to a second
synth's audio input (with a MIDI link between them and an unconnected
monitor placed): both connections are valid, yet no unrouted-audio warning
is emitted — the engine records *both* endpoints of the valid audio
connection as audio-linked, so Synth Two is not reported unrouted. -/
theorem no_unrouted_warning_counterexample :
    (inferConnections [synthOneInstance, synthTwoInstance, monitorInstance]
        [synthAudioConn, synthMidiConn] {}).connections.map (fun c => c.status)
      = [ConnectionStatus.valid, ConnectionStatus.valid] ∧
    (inferConnections [synthOneInstance, synthTwoInstance, monitorInstance]
        [synthAudioConn, synthMidiConn] {}).warnings
      = ["Set a clock master so your MIDI devices stay in sync."] ∧
    "Audio from Synth Two is not routed to any destination. Connect these devices to a mixer, audio interface, or monitors."
      ∉ (inferConnections [synthOneInstance, synthTwoInstance, monitorInstance]
        [synthAudioConn, synthMidiConn] {}).warnings := by
  refine ⟨rfl, rfl, ?_⟩
  decide

/-- C4 (amended): every valid audio connection records *both* endpoint
instances as audio-linked — the `from` side unless it is declared `in` and
the `to` side unless it is declared `out`, and a valid connection excludes
both of those cases — so the input endpoint of a valid audio connection is
audio-linked too (and no unrouted-audio warning arises for it). -/
theorem valid_audio_connection_links_both_endpoints (I : List DeviceInstance)
    (conn : Connection) (h1 : isValidOf I conn = true)
    (h2 : PortSignal.audio ∈ signalOverlapOf I conn) :
    audioLinkedAddOf I conn = [conn.cFrom.instanceId, conn.cTo.instanceId] := by
  rcases hfp : fromPortOf I conn with _ | fp
  · rw [isValidOf_false_of_fromPort_none I conn hfp] at h1; cases h1
  rcases htp : toPortOf I conn with _ | tp
  · rw [isValidOf_false_of_toPort_none I conn htp] at h1; cases h1
  have hb : blockingIssuesOf I conn = [] := (isValid_iff_blocking_nil I conn).mp h1
  have hfd : ¬ (fp.direction = .input) := by
    intro hd
    simp [blockingIssuesOf, hfp, htp, hd] at hb
  have htd : ¬ (tp.direction = .output) := by
    intro hd
    simp [blockingIssuesOf, hfp, htp, hd] at hb
  simp [audioLinkedAddOf, hfp, htp, h1, h2, hfd, htd]

/-- Witness for the amended C4 at the scenario's audio connection. -/
theorem valid_audio_connection_links_both_endpoints_witness :
    audioLinkedAddOf [synthOneInstance, synthTwoInstance, monitorInstance] synthAudioConn
      = [synthAudioConn.cFrom.instanceId, synthAudioConn.cTo.instanceId] :=
  valid_audio_connection_links_both_endpoints
    [synthOneInstance, synthTwoInstance, monitorInstance] synthAudioConn
    (by decide) (by decide)

/-- C6: a declared connection whose source port (as found on its device)
has direction `in` is marked invalid by the engine, whatever the other
attributes of the two ports are. -/
theorem declared_input_source_invalid (I : List DeviceInstance) (conns : List Connection)
    (opts : InferenceOptions) (i : Nat) (h : i < conns.length) (p : Port)
    (hp : fromPortOf I conns[i] = some p) (hdir : p.direction = .input) :
    ∃ oc, (inferConnections I conns opts).connections[i]? = some oc ∧
      oc.status = .invalid := by
  refine ⟨updateConnection I conns[i], ?_, ?_⟩
  · rw [inferConnections_connections]
    simp [List.getElem?_map, List.getElem?_eq_getElem h]
  · show statusOf _ _ = _
    rw [statusOf_eq_invalid_iff]
    intro hb
    simp [blockingIssuesOf, hp, hdir] at hb

/-- Witness for C6: the Digitakt MIDI input declared as the source. -/
theorem declared_input_source_invalid_witness :
    ∃ oc, (inferConnections [keystepInstance, digitaktInstance] [digitaktToKeystep]
        {}).connections[0]? = some oc ∧ oc.status = .invalid :=
  declared_input_source_invalid [keystepInstance, digitaktInstance] [digitaktToKeystep]
    {} 0 (by decide) digitaktMidiIn (by decide) (by decide)

/-- C7: with at least one MIDI-capable instance and no designated clock
master the warning list contains the "set a clock master" warning exactly
once, whatever the connections are; and with more than one designated
master it contains the "multiple clock masters" warning exactly once. -/
theorem clock_master_warning_exactly_once (I : List DeviceInstance)
    (conns : List Connection) (opts : InferenceOptions) :
    ((midiCapableInstancesOf I ≠ [] ∧ toSetList (opts.clockMasterIds.getD []) = []) →
      (inferConnections I conns opts).warnings.count
        "Set a clock master so your MIDI devices stay in sync." = 1) ∧
    (1 < (toSetList (opts.clockMasterIds.getD [])).length →
      (inferConnections I conns opts).warnings.count
        "Multiple MIDI clock masters selected. Choose only one master clock device." = 1) := by
  have hnodup : (inferConnections I conns opts).warnings.Nodup := by
    show (mastersPass _ _ _ _ (multipleMastersPass _ (clockMasterMissingPass _ _
      (unclockedPass _ _ _ (unroutedPass _ _ _ _ _))))).Nodup
    exact mastersPass_nodup _ _ _ _ (multipleMastersPass_nodup _
      (clockMasterMissingPass_nodup _ _ (unclockedPass_nodup _ _ _
        (unroutedPass_nodup _ _ _ _
          (foldl_inferStep_warnings_nodup _ _ _ _ List.nodup_nil)))))
  constructor
  · rintro ⟨h1, h2⟩
    refine List.count_eq_one_of_mem hnodup ?_
    show _ ∈ mastersPass _ _ _ _ (multipleMastersPass _ (clockMasterMissingPass _ _
      (unclockedPass _ _ _ (unroutedPass _ _ _ _ _))))
    refine mem_mastersPass_of_mem _ _ _ _ (mem_multipleMastersPass_of_mem _ ?_)
    exact clockMasterMissingPass_adds _ _ _ (List.length_pos.mpr h1) (by rw [h2]; rfl)
  · intro h1
    refine List.count_eq_one_of_mem hnodup ?_
    show _ ∈ mastersPass _ _ _ _ (multipleMastersPass _ (clockMasterMissingPass _ _
      (unclockedPass _ _ _ (unroutedPass _ _ _ _ _))))
    exact mem_mastersPass_of_mem _ _ _ _ (multipleMastersPass_adds _ _ h1)

/-- Witness for C7: part one with two MIDI devices and no master, part two
with two designated masters. -/
theorem clock_master_warning_exactly_once_witness :
    (inferConnections [keystepInstance, digitaktInstance] [] {}).warnings.count
      "Set a clock master so your MIDI devices stay in sync." = 1 ∧
    (inferConnections [keystepInstance, digitaktInstance] []
        { clockMasterIds := some ["inst-keystep", "inst-digitakt"] }).warnings.count
      "Multiple MIDI clock masters selected. Choose only one master clock device." = 1 :=
  ⟨(clock_master_warning_exactly_once [keystepInstance, digitaktInstance] [] {}).1
      ⟨by decide, rfl⟩,
   (clock_master_warning_exactly_once [keystepInstance, digitaktInstance] []
      { clockMasterIds := some ["inst-keystep", "inst-digitakt"] }).2 (by decide)⟩

/-- C8: for every evaluated connection, at most one of the two
electrical-wiring advisories (the balanced/unbalanced mismatch and the
stereo-to-mono mismatch) ends up in that connection's advisory bucket. -/
theorem wiring_advisories_at_most_one (I : List DeviceInstance) (conn : Connection) :
    (advisoryMessagesOf I conn).count balancedMismatchMsg +
      (advisoryMessagesOf I conn).count stereoMismatchMsg ≤ 1 := by
  rcases hfp : fromPortOf I conn with _ | fp
  · simp [advisoryMessagesOf, hfp]
  rcases htp : toPortOf I conn with _ | tp
  · simp [advisoryMessagesOf, hfp, htp]
  cases hv : isValidOf I conn
  · simp [advisoryMessagesOf, hfp, htp, hv]
  · have hwiring : ∀ l : List String,
        (l = [] ∨ ∃ a b, l = wiringAdvisories a b) →
        l.count balancedMismatchMsg + l.count stereoMismatchMsg ≤ 1 := by
      rintro l (rfl | ⟨a, b, rfl⟩)
      · simp
      · exact wiringAdvisories_count a b
    have hshape :
        advisoryMessagesOf I conn =
          (match adapterDescriptionOf I conn with
           | some d => ["Use " ++ d]
           | none => []) ++
          (match getAudioWiring fp, getAudioWiring tp with
           | some fw, some tw => wiringAdvisories fw tw
           | _, _ => []) := by
      simp [advisoryMessagesOf, hfp, htp, hv]
    rw [hshape, List.count_append, List.count_append]
    have hwir : (match getAudioWiring fp, getAudioWiring tp with
        | some fw, some tw => wiringAdvisories fw tw
        | _, _ => ([] : List String)).count balancedMismatchMsg +
        (match getAudioWiring fp, getAudioWiring tp with
        | some fw, some tw => wiringAdvisories fw tw
        | _, _ => ([] : List String)).count stereoMismatchMsg ≤ 1 := by
      apply hwiring
      rcases getAudioWiring fp with _ | a <;> rcases getAudioWiring tp with _ | b
      · exact Or.inl rfl
      · exact Or.inl rfl
      · exact Or.inl rfl
      · exact Or.inr ⟨a, b, rfl⟩
    have hada : (match adapterDescriptionOf I conn with
        | some d => ["Use " ++ d]
        | none => ([] : List String)).count balancedMismatchMsg = 0 ∧
        (match adapterDescriptionOf I conn with
        | some d => ["Use " ++ d]
        | none => ([] : List String)).count stereoMismatchMsg = 0 := by
      rcases adapterDescriptionOf I conn with _ | d
      · simp
      · constructor <;> rw [List.count_eq_zero]
        · intro hmem
          rw [List.mem_singleton] at hmem
          exact use_prefix_ne_balanced d hmem.symm
        · intro hmem
          rw [List.mem_singleton] at hmem
          exact use_prefix_ne_stereo d hmem.symm
    omega

/-- C10 counterexample: two ports with the *same* raw connector code
(`usb_c`) whose physical-connector overrides resolve to `trs-midi` and
`din5` are reported compatible *via the adapter chain*
`["trs-midi-to-din5"]`, not with an empty chain — the adapter lookup runs
before the raw-equality fallback and hits. -/
theorem equal_codes_adapter_chain_counterexample :
    usbOverrideTrsMidi.connector = usbOverrideDin5.connector ∧
    (getConnectorCompatibility usbOverrideTrsMidi usbOverrideDin5).compatible = true ∧
    (getConnectorCompatibility usbOverrideTrsMidi usbOverrideDin5).adapterCodes
      = some ["trs-midi-to-din5"] ∧
    (getConnectorCompatibility usbOverrideTrsMidi usbOverrideDin5).adapterCodes ≠ none := by
  refine ⟨rfl, rfl, rfl, ?_⟩
  decide

/-- C10 (amended): ports with equal raw connector codes are always
reported compatible, but the adapter chain is empty only when the two
resolved physical families do not form an adapter-matrix pair: when both
ports resolve to (distinct) families, the chain is exactly what the
adapter matrix returns for them, and the raw-equality fallback applies
otherwise. -/
theorem equal_codes_compatible (p q : Port) (h : p.connector = q.connector) :
    (getConnectorCompatibility p q).compatible = true ∧
    (getConnectorCompatibility p q).adapterCodes =
      (match getPhysicalConnector p, getPhysicalConnector q with
       | some f1, some f2 => if f1 = f2 then none else resolveAdapterChain f1 f2
       | _, _ => none) := by
  have key : ∀ (c : PortConnector) (o1 o2 : Option PhysicalConnector),
      (gccKey c o1 c o2).compatible = true ∧
      (gccKey c o1 c o2).adapterCodes =
        (match getPhysicalConnectorKey c o1, getPhysicalConnectorKey c o2 with
         | some f1, some f2 => if f1 = f2 then none else resolveAdapterChain f1 f2
         | _, _ => none) := by
    decide
  unfold getConnectorCompatibility getPhysicalConnector
  rw [h]
  exact key q.connector p.physicalConnector q.physicalConnector

/-- C5: a declared connection from a MIDI-out `trs-midi` port (no physical
override) to a MIDI-in `din5` port, the two sharing the `midi` signal and
both resolving to the MIDI domain, is resolved compatible via the adapter
chain `["trs-midi-to-din5"]`; the cable suggestion's description is
"TRS-A to DIN-5 MIDI cable", the connection's final status is `pending`,
and the engine emits the workflow summary
"`<fromDeviceLabel> → <toDeviceLabel>: Use TRS-A to DIN-5 MIDI cable.`". -/
theorem trs_midi_to_din5_pending (I : List DeviceInstance) (conns : List Connection)
    (opts : InferenceOptions) (i : Nat) (h : i < conns.length)
    (fp tp : Port)
    (hfp : fromPortOf I conns[i] = some fp) (htp : toPortOf I conns[i] = some tp)
    (hfdir : fp.direction = .output) (htdir : tp.direction = .input)
    (hfc : fp.connector = .trs_midi) (htc : tp.connector = .din5)
    (hfo : fp.physicalConnector = none) (hto : tp.physicalConnector = none)
    (hfm : PortSignal.midi ∈ fp.signals) (htm : PortSignal.midi ∈ tp.signals)
    (hfdom : getPortDomain fp = some .midi) (htdom : getPortDomain tp = some .midi) :
    (getConnectorCompatibility fp tp).compatible = true ∧
    (getConnectorCompatibility fp tp).adapterCodes = some ["trs-midi-to-din5"] ∧
    (cableOf I conns[i]).map (fun cs => cs.description)
      = some "TRS-A to DIN-5 MIDI cable" ∧
    (∃ oc, (inferConnections I conns opts).connections[i]? = some oc ∧
      oc.status = .pending) ∧
    summaryOf I conns[i] = some (fromDeviceLabelOf I conns[i] ++ " → " ++
      toDeviceLabelOf I conns[i] ++ ": Use TRS-A to DIN-5 MIDI cable.") ∧
    (fromDeviceLabelOf I conns[i] ++ " → " ++ toDeviceLabelOf I conns[i] ++
      ": Use TRS-A to DIN-5 MIDI cable.") ∈ (inferConnections I conns opts).summaries := by
  have hcc : getConnectorCompatibility fp tp =
      { compatible := true, resultingConnector := some .din5,
        adapterCodes := some ["trs-midi-to-din5"] } := by
    unfold getConnectorCompatibility
    rw [hfc, htc, hfo, hto]
    rfl
  obtain ⟨fdev, hfdev⟩ : ∃ d, fromDeviceOf I conns[i] = some d := by
    rcases hd : fromDeviceOf I conns[i] with _ | d
    · unfold fromPortOf at hfp
      rw [hd] at hfp
      cases hfp
    · exact ⟨d, rfl⟩
  obtain ⟨tdev, htdev⟩ : ∃ d, toDeviceOf I conns[i] = some d := by
    rcases hd : toDeviceOf I conns[i] with _ | d
    · unfold toPortOf at htp
      rw [hd] at htp
      cases htp
    · exact ⟨d, rfl⟩
  have hov : PortSignal.midi ∈ intersection fp.signals tp.signals := by
    simp [intersection, List.mem_filter, hfm, htm]
  have hovne : intersection fp.signals tp.signals ≠ [] := List.ne_nil_of_mem hov
  have hovpos : 0 < (intersection fp.signals tp.signals).length :=
    List.length_pos.mpr hovne
  have hb : blockingIssuesOf I conns[i] = [] := by
    simp [blockingIssuesOf, hfp, htp, hfdev, htdev, hfdir, htdir, hfdom, htdom, hcc,
      List.length_eq_zero, hovne]
  have hval : isValidOf I conns[i] = true := by
    unfold isValidOf
    rw [hfp, htp]
    simp [hcc, hb, hovpos]
  have hadapt : adapterDescriptionOf I conns[i] = some "TRS-A to DIN-5 MIDI cable" := by
    simp only [adapterDescriptionOf, hfp, htp, hcc]
    rfl
  have hends : strEndsWith "TRS-A to DIN-5 MIDI cable" "." = false := by decide
  have hsummary : summaryOf I conns[i] = some (fromDeviceLabelOf I conns[i] ++ " → " ++
      toDeviceLabelOf I conns[i] ++ ": Use TRS-A to DIN-5 MIDI cable.") := by
    simp only [summaryOf, hfp, htp, hval, if_true, hadapt, Option.getD_some, hends,
      Bool.false_eq_true, if_false]
    rw [String.append_assoc]
    congr 1
  have hadv : advisoryMessagesOf I conns[i] ≠ [] := by
    simp [advisoryMessagesOf, hfp, htp, hval, hadapt]
  refine ⟨by rw [hcc], by rw [hcc], ?_, ⟨updateConnection I conns[i], ?_, ?_⟩, hsummary, ?_⟩
  · simp [cableOf, hfp, htp, hval, hadapt]
  · rw [inferConnections_connections]
    simp [List.getElem?_map, List.getElem?_eq_getElem h]
  · show statusOf _ _ = _
    rw [statusOf_eq_pending_iff]
    exact ⟨hb, hadv⟩
  · rw [inferConnections_summaries]
    exact List.mem_filterMap.mpr ⟨conns[i], List.getElem_mem h, hsummary⟩

/-- Witness for C5: the Keystep → Digitakt connection ends `pending`. -/
theorem trs_midi_to_din5_pending_witness :
    ∃ oc, (inferConnections [keystepInstance, digitaktInstance] [keystepToDigitakt]
        {}).connections[0]? = some oc ∧ oc.status = .pending := by
  obtain ⟨-, -, -, h4, -, -⟩ :=
    trs_midi_to_din5_pending [keystepInstance, digitaktInstance] [keystepToDigitakt]
      {} 0 (by decide) keystepMidiOut digitaktMidiIn (by decide) (by decide)
      rfl rfl rfl rfl rfl rfl (by decide) (by decide) (by decide) (by decide)
  exact h4

/-- Witness for the amended C10 at the override counterexample pair. -/
theorem equal_codes_compatible_witness :
    (getConnectorCompatibility usbOverrideTrsMidi usbOverrideDin5).compatible = true ∧
    (getConnectorCompatibility usbOverrideTrsMidi usbOverrideDin5).adapterCodes =
      (match getPhysicalConnector usbOverrideTrsMidi, getPhysicalConnector usbOverrideDin5 with
       | some f1, some f2 => if f1 = f2 then none else resolveAdapterChain f1 f2
       | _, _ => none) :=
  equal_codes_compatible usbOverrideTrsMidi usbOverrideDin5 rfl

/-- C9, evaluated at the failing input: for the Keystep/Digitakt pair the
Pairwise Recommender returns exactly one phrase, and that phrase joins the
two device labels with the mojibake glyphs `U+00E2 U+2020 U+2019`
(`brokenArrow`) instead of the arrow `→` (U+2192) that the claim's format
`"<fromLabel> → <toLabel>: Use <description>"` prescribes — so the phrase
required by the claim is *not* in the output. -/
theorem recommender_mojibake_arrow :
    recommendBetweenDevices keystep digitakt
      = ["Keystep " ++ brokenArrow ++ " Digitakt: Use TRS-A to DIN-5 MIDI cable"] ∧
    "Keystep → Digitakt: Use TRS-A to DIN-5 MIDI cable" ∉
      recommendBetweenDevices keystep digitakt ∧
    brokenArrow ≠ "→" := by
  refine ⟨rfl, by decide, by decide⟩

end ConnectMyGear
